import Mathlib

/-!
Shallow embedding of the CRM backend (crm/schema.py) of
alx-backend-graphql_crm.

The mutations and resolvers of `crm/schema.py` are translated as pure
functions over an explicit `Store` state (the relational store).  Django's
`transaction.atomic` blocks are modelled by the fact that every mutation
returns the final store in both the success and the error case: an error
raised inside an atomic block rolls the store back, so a failing call
returns the input store unchanged.

`crm/models.py` is not among the sources; the parts of the behaviour that
live there (field validation `Customer.clean`, the store-level email
uniqueness constraint, and the save-triggered recomputation of
`Order.total_amount`) are modelled from the spec where indicated.

Prices and money amounts (Django `DecimalField`) are modelled as `Rat`;
stock (Django `IntegerField`) as `Int`; ids as `Nat`.
-/

/-- A row of the Customer table: id, name, email (unique at the store
level), optional phone. `created_at` plays no role in any claim and is
omitted. -/
structure CustomerRec where
  id : Nat
  name : String
  email : String
  phone : Option String
  deriving Repr, DecidableEq

/-- A row of the Product table: id, name, price (decimal), stock
(integer, default 0). -/
structure ProductRec where
  id : Nat
  name : String
  price : Rat
  stock : Int
  deriving Repr, DecidableEq

/-- A row of the Order table: id, the referenced customer, the ids of the
attached products (the `products` many-to-many set), the derived
`total_amount`, and the order date (a timestamp). -/
structure OrderRec where
  id : Nat
  customerId : Nat
  productIds : List Nat
  totalAmount : Rat
  orderDate : Nat
  deriving Repr, DecidableEq

/-- The relational store backing the three models. -/
structure Store where
  customers : List CustomerRec
  products : List ProductRec
  orders : List OrderRec
  deriving Repr, DecidableEq

/-- The error taxonomy of the mutations in `crm/schema.py`:
`Exception("Invalid customer ID")`, `Exception("At least one product is
required")`, `Exception("One or more product IDs are invalid")`,
`Exception("Email already exists")` (from `IntegrityError`), and
`Exception(str(e))` for a `ValidationError` raised by `clean()`. -/
inductive CrmError where
  | invalidCustomer
  | emptyProductList
  | invalidProduct
  | duplicateEmail
  | validation (msg : String)
  deriving Repr, DecidableEq

/-- Decidable equality of mutation results. -/
instance exceptDecEq {ε α : Type} [DecidableEq ε] [DecidableEq α] :
    DecidableEq (Except ε α) := fun a b =>
  match a, b with
  | Except.ok x, Except.ok y =>
    if h : x = y then isTrue (by rw [h])
    else isFalse (fun hh => h (Except.ok.inj hh))
  | Except.error x, Except.error y =>
    if h : x = y then isTrue (by rw [h])
    else isFalse (fun hh => h (Except.error.inj hh))
  | Except.ok _, Except.error _ => isFalse (fun hh => Except.noConfusion hh)
  | Except.error _, Except.ok _ => isFalse (fun hh => Except.noConfusion hh)

/-- `Customer.objects.get(id=...)`: resolves a customer id against the
store, `none` when `Customer.DoesNotExist`. -/
def resolveCustomer (s : Store) (cid : Nat) : Option CustomerRec :=
  s.customers.find? (fun c => c.id = cid)

/-- `Product.objects.filter(id__in=product_ids)`: the products of the
store whose id occurs in `pids` (each store row at most once, as in the
queryset). -/
def resolveProducts (s : Store) (pids : List Nat) : List ProductRec :=
  s.products.filter (fun p => p.id ∈ pids)

/-- Modelled from the spec: `crm/models.py` is absent from the sources;
per the spec, `Order.total_amount` is "recomputed from the sum of
associated product prices whenever the product set changes and the record
is saved".  The second `order.save()` of `CreateOrder.mutate` therefore
sets `total_amount` to this sum. -/
def orderTotal (prods : List ProductRec) : Rat :=
  (prods.map (fun p => p.price)).sum

/-- `CreateOrder.mutate` of `crm/schema.py`: validates the customer id,
rejects an empty product list, requires the resolved product count to
equal the requested count, then (inside `transaction.atomic`) persists the
order, attaches the products, and re-saves, which recomputes
`total_amount`.  `newId` is the id the store assigns to the new row and
`now` the current time used when `order_date` is not supplied.  Returns
the mutation result together with the final store. -/
def createOrder (s : Store) (cid : Nat) (pids : List Nat)
    (orderDate : Option Nat) (newId now : Nat) :
    Except CrmError OrderRec × Store :=
  match resolveCustomer s cid with
  | none => (Except.error CrmError.invalidCustomer, s)
  | some c =>
    if pids.isEmpty then (Except.error CrmError.emptyProductList, s)
    else
      let prods := resolveProducts s pids
      if prods.length ≠ pids.length then
        (Except.error CrmError.invalidProduct, s)
      else
        let ord : OrderRec :=
          { id := newId
            customerId := c.id
            productIds := prods.map (fun p => p.id)
            totalAmount := orderTotal prods
            orderDate := orderDate.getD now }
        (Except.ok ord, { s with orders := s.orders ++ [ord] })

/-- The input shape of `CreateCustomer` / `BulkCreateCustomers`. -/
structure CustomerInput where
  name : String
  email : String
  phone : Option String
  deriving Repr, DecidableEq

/-- Modelled from the spec: `crm/models.py` (and with it `Customer.clean`)
is absent from the sources.  The spec says only that `create_customer`
"validates fields" and "fails with ValidationError if fields are
malformed", without fixing the validation rules, so the development is
parametric in a `Clean` function: `none` means the fields pass validation,
`some msg` means `clean()` raises `ValidationError(msg)`. -/
def Clean : Type := CustomerInput → Option String

/-- `CreateCustomer.mutate` of `crm/schema.py`: runs `clean()` (a
`ValidationError` is re-raised as its message), then saves; per the spec
email uniqueness is enforced at the store level, so saving a duplicate
email raises `IntegrityError`, reported as "Email already exists". -/
def createCustomer (clean : Clean) (s : Store) (input : CustomerInput)
    (newId : Nat) : Except CrmError CustomerRec × Store :=
  match clean input with
  | some msg => (Except.error (CrmError.validation msg), s)
  | none =>
    if s.customers.any (fun c => c.email = input.email) then
      (Except.error CrmError.duplicateEmail, s)
    else
      let c : CustomerRec :=
        { id := newId, name := input.name, email := input.email
          phone := input.phone }
      (Except.ok c, { s with customers := s.customers ++ [c] })

/-- The error string `BulkCreateCustomers.mutate` records for a failed
item. -/
def bulkItemError (item : CustomerInput) (e : CrmError) : String :=
  "Failed to create customer " ++ item.name ++ ": " ++ toString (repr e)

/-- `BulkCreateCustomers.mutate` of `crm/schema.py`: processes the items
in order inside one transaction; a failing item contributes one error
string and processing continues with the next item; a succeeding item is
saved (so later items see it) and contributes one created customer. -/
def bulkCreateCustomers (clean : Clean) (s : Store)
    (inputs : List CustomerInput) (nextId : Nat) :
    (List CustomerRec × List String) × Store :=
  match inputs with
  | [] => (([], []), s)
  | item :: rest =>
    match createCustomer clean s item nextId with
    | (Except.ok c, s1) =>
      let r := bulkCreateCustomers clean s1 rest (nextId + 1)
      ((c :: r.1.1, r.1.2), r.2)
    | (Except.error e, s1) =>
      let r := bulkCreateCustomers clean s1 rest (nextId + 1)
      ((r.1.1, bulkItemError item e :: r.1.2), r.2)

/-- `UpdateLowStockProducts.mutate` of `crm/schema.py`: filters the
products with `stock__lt=10`, increments each one's stock by 10 and saves
it, collecting the updated rows; returns them with the message
`Updated {n} low stock products`. -/
def updateLowStockProducts (s : Store) :
    (List ProductRec × String) × Store :=
  let updated := (s.products.filter (fun p => p.stock < 10)).map
    (fun p => { p with stock := p.stock + 10 })
  let message := "Updated " ++ toString updated.length ++
    " low stock products"
  ((updated, message),
   { s with
     products := s.products.map
       (fun p => if p.stock < 10 then { p with stock := p.stock + 10 }
                 else p) })

/-- `Order.objects.aggregate(Sum('total_amount'))['total_amount__sum']`:
`none` (SQL NULL) when there are no rows, otherwise the sum. -/
def aggregateSum (l : List Rat) : Option Rat :=
  if l.isEmpty then none else some l.sum

/-- Python `x or 0` applied to the aggregate: `None` and a zero value both
give `0`. -/
def pyOrZero (x : Option Rat) : Rat :=
  match x with
  | none => 0
  | some v => if v = 0 then 0 else v

/-- The result shape of `crm_report`. -/
structure CrmReport where
  totalCustomers : Nat
  totalOrders : Nat
  totalRevenue : Rat
  deriving Repr, DecidableEq

/-- `Query.resolve_crm_report` of `crm/schema.py`: counts customers and
orders and aggregates revenue, with `or 0` turning a NULL sum into 0. -/
def crmReport (s : Store) : CrmReport :=
  { totalCustomers := s.customers.length
    totalOrders := s.orders.length
    totalRevenue :=
      pyOrZero (aggregateSum (s.orders.map (fun o => o.totalAmount))) }

/-! ### Concrete data used by examples, witnesses and counterexamples -/

/-- The empty store (empty database). -/
def emptyStore : Store := { customers := [], products := [], orders := [] }

/-- A concrete customer row. -/
def aliceC : CustomerRec :=
  { id := 1, name := "Alice", email := "alice@example.com", phone := none }

/-- A concrete product priced at 10. -/
def prodTen : ProductRec := { id := 1, name := "P1", price := 10, stock := 5 }

/-- A concrete product priced at 15. -/
def prodFifteen : ProductRec := { id := 2, name := "P2", price := 15, stock := 5 }

/-- A store containing one customer and the two products above. -/
def storeAlice : Store :=
  { customers := [aliceC], products := [prodTen, prodFifteen], orders := [] }

/-- A store whose products have stocks [3, 15, 9] (prices irrelevant). -/
def storeStocks : Store :=
  { customers := [], orders := [],
    products :=
      [ { id := 1, name := "A", price := 1, stock := 3 },
        { id := 2, name := "B", price := 1, stock := 15 },
        { id := 3, name := "C", price := 1, stock := 9 } ] }

/-- The first product of `storeStocks` (stock 3). -/
def stockP1 : ProductRec := { id := 1, name := "A", price := 1, stock := 3 }

/-- A validation function that accepts every input (well-formed
fields). -/
def cleanNone : Clean := fun _ => none

/-- An input whose email is not used in `storeAlice`. -/
def freshInput : CustomerInput :=
  { name := "Bob", email := "bob@example.com", phone := none }

/-- An input reusing Alice's email. -/
def dupInput : CustomerInput :=
  { name := "Eve", email := "alice@example.com", phone := none }

/-! ### Helper lemmas -/

/-- Collapsing the Python `... or 0` over the SQL aggregate: the revenue
reported equals the plain sum of the order totals (0 when there are no
orders). -/
theorem pyOrZero_aggregateSum (l : List Rat) :
    pyOrZero (aggregateSum l) = l.sum := by
  unfold pyOrZero aggregateSum
  by_cases h : l.isEmpty
  · simp [h, List.isEmpty_iff.mp h]
  · simp only [h, if_false, Bool.false_eq_true]
    split
    · next hz => exact hz.symm
    · rfl

/-! ### C5: non-existent customer -/

/-- C5: for every customer id that does not resolve to an existing
customer, and every product id list (empty or not, valid or not),
`create_order` fails with InvalidCustomer and leaves the store
unchanged. -/
theorem createOrder_invalidCustomer (s : Store) (cid : Nat)
    (pids : List Nat) (od : Option Nat) (nid now : Nat)
    (h : resolveCustomer s cid = none) :
    createOrder s cid pids od nid now =
      (Except.error CrmError.invalidCustomer, s) := by
  unfold createOrder
  rw [h]

/-- Witness for C5: in the empty store no customer id resolves, and the
call fails with InvalidCustomer, both on an empty and on a non-empty
product list. -/
theorem createOrder_invalidCustomer_witness :
    resolveCustomer emptyStore 1 = none ∧
    createOrder emptyStore 1 [1, 2] none 5 0 =
      (Except.error CrmError.invalidCustomer, emptyStore) ∧
    createOrder emptyStore 1 [] none 5 0 =
      (Except.error CrmError.invalidCustomer, emptyStore) :=
  ⟨rfl, createOrder_invalidCustomer emptyStore 1 [1, 2] none 5 0 rfl,
    createOrder_invalidCustomer emptyStore 1 [] none 5 0 rfl⟩

/-! ### C6: empty product list -/

/-- C6, counterexample to the claim as stated: a call with
`product_ids = []` does not always fail with EmptyProductList — when the
customer id does not resolve either, the customer check runs first and
the call fails with InvalidCustomer instead. -/
theorem createOrder_emptyList_counterexample :
    (createOrder emptyStore 1 [] none 5 0).1 =
      Except.error CrmError.invalidCustomer ∧
    (createOrder emptyStore 1 [] none 5 0).1 ≠
      Except.error CrmError.emptyProductList := by
  constructor
  · rfl
  · decide

/-- C6, amended: for every call of `create_order` whose customer id
resolves to an existing customer, `product_ids = []` makes the call fail
with EmptyProductList (and the store is unchanged). -/
theorem createOrder_emptyProductList (s : Store) (cid : Nat)
    (od : Option Nat) (nid now : Nat) (c : CustomerRec)
    (h : resolveCustomer s cid = some c) :
    createOrder s cid [] od nid now =
      (Except.error CrmError.emptyProductList, s) := by
  unfold createOrder
  rw [h]
  rfl

/-- Witness for C6: the store with Alice resolves customer id 1, and the
empty-product-list call fails with EmptyProductList. -/
theorem createOrder_emptyProductList_witness :
    resolveCustomer storeAlice 1 = some aliceC ∧
    createOrder storeAlice 1 [] none 5 0 =
      (Except.error CrmError.emptyProductList, storeAlice) :=
  ⟨by decide, createOrder_emptyProductList storeAlice 1 none 5 0 aliceC
    (by decide)⟩

/-! ### C9: a failing create_order leaves the store unchanged -/

/-- C9: whenever `create_order` fails — for any input and any store
state — the final store equals the input store: no order row is
persisted and no partial product attachment is visible.  (The two-phase
save runs inside one `transaction.atomic` scope, modelled here by the
mutation returning the rolled-back input store on every error path.) -/
theorem createOrder_error_store_unchanged (s : Store) (cid : Nat)
    (pids : List Nat) (od : Option Nat) (nid now : Nat) (e : CrmError)
    (h : (createOrder s cid pids od nid now).1 = Except.error e) :
    (createOrder s cid pids od nid now).2 = s := by
  unfold createOrder at h ⊢
  cases hc : resolveCustomer s cid with
  | none => simp [hc]
  | some c =>
    simp only [hc] at h ⊢
    by_cases hp : pids.isEmpty
    · simp [hp]
    · simp only [hp, if_false, Bool.false_eq_true] at h ⊢
      by_cases hl : (resolveProducts s pids).length ≠ pids.length
      · simp [hl]
      · simp only [hl, if_false] at h
        cases h

/-- Witness for C9: the call on the store with Alice and a bad product id
fails, and the resulting store is the input store. -/
theorem createOrder_error_store_unchanged_witness :
    (createOrder storeAlice 1 [99] none 5 0).1 =
      Except.error CrmError.invalidProduct ∧
    (createOrder storeAlice 1 [99] none 5 0).2 = storeAlice :=
  ⟨by decide, createOrder_error_store_unchanged storeAlice 1 [99] none 5 0
    CrmError.invalidProduct (by decide)⟩

/-! ### C7: the CRM report -/

/-- C7: `crm_report()` returns the number of customers, the number of
orders, and as revenue the sum of the orders' `total_amount` values —
which is the number 0, never NULL, when there are no orders; on the
empty database it returns {0, 0, 0}. -/
theorem crmReport_correct :
    (∀ s : Store,
      (crmReport s).totalCustomers = s.customers.length ∧
      (crmReport s).totalOrders = s.orders.length ∧
      (crmReport s).totalRevenue =
        (s.orders.map (fun o => o.totalAmount)).sum) ∧
    crmReport emptyStore =
      { totalCustomers := 0, totalOrders := 0, totalRevenue := 0 } := by
  constructor
  · intro s
    refine ⟨rfl, rfl, ?_⟩
    exact pyOrZero_aggregateSum _
  · rfl

/-! ### C2: the low-stock update -/

/-- C2: `update_low_stock_products()` updates exactly the products with
stock strictly below 10, adding exactly 10 to each, leaves every product
with stock ≥ 10 unchanged, and returns the updated products with a
message whose count is the number of updated products; on stocks
[3, 15, 9] it produces [13, 15, 19], returns the rows now at [13, 19],
and reports "Updated 2 low stock products". -/
theorem updateLowStock_correct :
    (∀ (s : Store) (i : Nat) (p : ProductRec), s.products[i]? = some p →
      (p.stock < 10 →
        (updateLowStockProducts s).2.products[i]? =
          some { p with stock := p.stock + 10 }) ∧
      (¬ p.stock < 10 →
        (updateLowStockProducts s).2.products[i]? = some p)) ∧
    (∀ s : Store,
      (updateLowStockProducts s).2.products.length = s.products.length ∧
      (updateLowStockProducts s).1.1.length =
        s.products.countP (fun p => p.stock < 10) ∧
      (updateLowStockProducts s).1.2 =
        "Updated " ++
          toString (s.products.countP (fun p => p.stock < 10)) ++
          " low stock products") ∧
    ((updateLowStockProducts storeStocks).2.products.map
        (fun p => p.stock) = [13, 15, 19] ∧
      (updateLowStockProducts storeStocks).1.1.map
        (fun p => p.stock) = [13, 19] ∧
      (updateLowStockProducts storeStocks).1.2 =
        "Updated 2 low stock products") := by
  refine ⟨?_, ?_, by decide, by decide, rfl⟩
  · intro s i p hp
    unfold updateLowStockProducts
    simp only [List.getElem?_map, hp]
    constructor
    · intro hlt
      simp [hlt]
    · intro hge
      simp [hge]
  · intro s
    refine ⟨List.length_map _ _, ?_, ?_⟩
    · unfold updateLowStockProducts
      simp [List.countP_eq_length_filter]
    · unfold updateLowStockProducts
      simp [List.countP_eq_length_filter]

/-- Witness for C2's conditional part: the first product of
`storeStocks` has stock 3 < 10 and is updated to stock 13. -/
theorem updateLowStock_correct_witness :
    storeStocks.products[0]? = some stockP1 ∧ stockP1.stock < 10 ∧
    (updateLowStockProducts storeStocks).2.products[0]? =
      some { stockP1 with stock := stockP1.stock + 10 } :=
  ⟨rfl, by decide,
    (updateLowStock_correct.1 storeStocks 0 stockP1 rfl).1 (by decide)⟩

/-! ### C10: running the low-stock update twice -/

/-- C10: if every product's stock is non-negative, running
`update_low_stock_products()` twice in succession equals running it once:
after the first run no stock is below 10, so the second run changes
nothing, returns no products, and reports "Updated 0 low stock
products". -/
theorem updateLowStock_idempotent (s : Store)
    (h : ∀ p ∈ s.products, 0 ≤ p.stock) :
    (updateLowStockProducts (updateLowStockProducts s).2).2 =
      (updateLowStockProducts s).2 ∧
    (updateLowStockProducts (updateLowStockProducts s).2).1.1 = [] ∧
    (updateLowStockProducts (updateLowStockProducts s).2).1.2 =
      "Updated 0 low stock products" := by
  have key : ∀ p ∈ (updateLowStockProducts s).2.products,
      ¬ p.stock < 10 := by
    intro p hp
    simp only [updateLowStockProducts, List.mem_map] at hp
    obtain ⟨q, hq, rfl⟩ := hp
    have h0 := h q hq
    by_cases hlt : q.stock < 10
    · simp only [if_pos hlt]
      omega
    · simp only [if_neg hlt]
      exact hlt
  have hfil : (updateLowStockProducts s).2.products.filter
      (fun p => p.stock < 10) = [] := by
    rw [List.filter_eq_nil_iff]
    intro p hp
    simpa using key p hp
  have hmap : (updateLowStockProducts s).2.products.map
      (fun p => if p.stock < 10 then { p with stock := p.stock + 10 }
                else p) = (updateLowStockProducts s).2.products := by
    have hcongr : ∀ p ∈ (updateLowStockProducts s).2.products,
        (if p.stock < 10 then { p with stock := p.stock + 10 } else p) =
          id p := fun p hp => if_neg (key p hp)
    rw [List.map_congr_left hcongr, List.map_id]
  set t := (updateLowStockProducts s).2 with ht
  refine ⟨?_, ?_, ?_⟩
  · simp only [updateLowStockProducts]
    rw [hmap]
  · simp only [updateLowStockProducts]
    rw [hfil]
    rfl
  · simp only [updateLowStockProducts]
    rw [hfil]
    rfl

/-- Witness for C10: `storeStocks` has only non-negative stocks, and the
second run after the first changes nothing and reports zero updates. -/
theorem updateLowStock_idempotent_witness :
    (∀ p ∈ storeStocks.products, 0 ≤ p.stock) ∧
    (updateLowStockProducts (updateLowStockProducts storeStocks).2).2 =
      (updateLowStockProducts storeStocks).2 ∧
    (updateLowStockProducts (updateLowStockProducts storeStocks).2).1.2 =
      "Updated 0 low stock products" :=
  ⟨by decide, (updateLowStock_idempotent storeStocks (by decide)).1,
    (updateLowStock_idempotent storeStocks (by decide)).2.2⟩

/-! ### C3 and C8: customer creation -/

/-- A failing `CreateCustomer.mutate` call leaves the store unchanged. -/
theorem createCustomer_error_snd (clean : Clean) (s : Store)
    (input : CustomerInput) (nid : Nat) (e : CrmError)
    (h : (createCustomer clean s input nid).1 = Except.error e) :
    (createCustomer clean s input nid).2 = s := by
  unfold createCustomer at h ⊢
  cases hcl : clean input with
  | some msg => simp [hcl]
  | none =>
    simp only [hcl] at h ⊢
    by_cases hdup : s.customers.any (fun c => c.email = input.email) = true
    · simp [hdup]
    · rw [if_neg hdup] at h
      exact absurd h (by simp)

/-- C3: in `bulk_create_customers` every input item contributes exactly
one outcome — a created customer or an error string (so created + errors
= inputs); a failing item is recorded as one error string and the
remaining items are processed exactly as if the failing item had been
skipped; on one fresh input and one duplicate-email input the result has
exactly one created customer and exactly one error string. -/
theorem bulkCreateCustomers_item_failures :
    (∀ (clean : Clean) (s : Store) (inputs : List CustomerInput)
        (nid : Nat),
      (bulkCreateCustomers clean s inputs nid).1.1.length +
        (bulkCreateCustomers clean s inputs nid).1.2.length =
        inputs.length) ∧
    (∀ (clean : Clean) (s : Store) (item : CustomerInput)
        (rest : List CustomerInput) (nid : Nat) (e : CrmError),
      (createCustomer clean s item nid).1 = Except.error e →
      (bulkCreateCustomers clean s (item :: rest) nid).1.1 =
        (bulkCreateCustomers clean s rest (nid + 1)).1.1 ∧
      (bulkCreateCustomers clean s (item :: rest) nid).1.2 =
        bulkItemError item e ::
          (bulkCreateCustomers clean s rest (nid + 1)).1.2) ∧
    ((bulkCreateCustomers cleanNone storeAlice
        [freshInput, dupInput] 10).1.1.length = 1 ∧
      (bulkCreateCustomers cleanNone storeAlice
        [freshInput, dupInput] 10).1.2.length = 1) := by
  refine ⟨?_, ?_, by decide, by decide⟩
  · intro clean s inputs nid
    induction inputs generalizing s nid with
    | nil => rfl
    | cons item rest ih =>
      cases hcc : createCustomer clean s item nid with
      | mk r s1 =>
        cases r with
        | ok c =>
          simp only [bulkCreateCustomers, hcc, List.length_cons]
          have := ih s1 (nid + 1)
          omega
        | error e =>
          simp only [bulkCreateCustomers, hcc, List.length_cons]
          have := ih s1 (nid + 1)
          omega
  · intro clean s item rest nid e h
    have hs : (createCustomer clean s item nid).2 = s :=
      createCustomer_error_snd clean s item nid e h
    cases hcc : createCustomer clean s item nid with
    | mk r s1 =>
      cases r with
      | ok c =>
        rw [hcc] at h
        exact absurd h (by simp)
      | error f =>
        rw [hcc] at h hs
        have he : f = e := Except.error.inj h
        have hs1 : s1 = s := hs
        subst he
        subst hs1
        refine ⟨?_, ?_⟩ <;> simp [bulkCreateCustomers, hcc]

/-- Witness for C3's conditional part: the duplicate-email input fails
against `storeAlice`, and processing a list starting with it yields the
error string in front of the outcome of the remaining items. -/
theorem bulkCreateCustomers_item_failures_witness :
    (createCustomer cleanNone storeAlice dupInput 10).1 =
      Except.error CrmError.duplicateEmail ∧
    (bulkCreateCustomers cleanNone storeAlice
        (dupInput :: [freshInput]) 10).1.2 =
      bulkItemError dupInput CrmError.duplicateEmail ::
        (bulkCreateCustomers cleanNone storeAlice [freshInput] 11).1.2 :=
  ⟨by decide,
    (bulkCreateCustomers_item_failures.2.1 cleanNone storeAlice dupInput
      [freshInput] 10 CrmError.duplicateEmail (by decide)).2⟩

/-- C8: creating a customer with an email already present in the store
always fails, and — whenever the fields pass validation — the failure is
specifically the duplicate-email error, not a generic one; with a
never-used email and fields passing validation the creation always
succeeds and appends the new customer. -/
theorem createCustomer_email_uniqueness (clean : Clean) (s : Store)
    (input : CustomerInput) (nid : Nat) :
    ((∃ c ∈ s.customers, c.email = input.email) →
      (∃ e, (createCustomer clean s input nid).1 = Except.error e) ∧
      (clean input = none →
        (createCustomer clean s input nid).1 =
          Except.error CrmError.duplicateEmail)) ∧
    ((∀ c ∈ s.customers, c.email ≠ input.email) → clean input = none →
      ∃ c, (createCustomer clean s input nid).1 = Except.ok c ∧
        c.email = input.email ∧
        (createCustomer clean s input nid).2.customers =
          s.customers ++ [c]) := by
  constructor
  · rintro ⟨c, hc, he⟩
    have hany : s.customers.any (fun c => c.email = input.email) = true :=
      List.any_eq_true.mpr ⟨c, hc, by simp [he]⟩
    constructor
    · cases hcl : clean input with
      | some m =>
        exact ⟨CrmError.validation m, by simp [createCustomer, hcl]⟩
      | none =>
        exact ⟨CrmError.duplicateEmail, by simp [createCustomer, hcl, hany]⟩
    · intro hcl
      simp [createCustomer, hcl, hany]
  · intro hne hcl
    have hany : s.customers.any (fun c => c.email = input.email) = false := by
      rw [List.any_eq_false]
      intro c hc
      simpa using hne c hc
    refine ⟨⟨nid, input.name, input.email, input.phone⟩, ?_, rfl, ?_⟩
    · simp [createCustomer, hcl, hany]
    · simp [createCustomer, hcl, hany]

/-- Witness for C8: against `storeAlice`, reusing Alice's email fails
with the duplicate-email error, and a fresh email succeeds. -/
theorem createCustomer_email_uniqueness_witness :
    (createCustomer cleanNone storeAlice dupInput 10).1 =
      Except.error CrmError.duplicateEmail ∧
    (∃ c, (createCustomer cleanNone storeAlice freshInput 10).1 =
        Except.ok c ∧
      c.email = freshInput.email ∧
      (createCustomer cleanNone storeAlice freshInput 10).2.customers =
        storeAlice.customers ++ [c]) :=
  ⟨((createCustomer_email_uniqueness cleanNone storeAlice dupInput 10).1
      ⟨aliceC, by decide, by decide⟩).2 rfl,
    (createCustomer_email_uniqueness cleanNone storeAlice freshInput 10).2
      (by decide) rfl⟩

/-! ### C1 and C4: create_order product resolution and totals -/

/-- The queryset row count only depends on which stored ids are
requested: counting products whose id is in `pids` equals counting
stored ids that are in `pids`. -/
theorem resolveProducts_length_eq_filter (s : Store) (pids : List Nat) :
    (resolveProducts s pids).length =
      ((s.products.map (fun p => p.id)).filter
        (fun i => i ∈ pids)).length := by
  unfold resolveProducts
  rw [← List.countP_eq_length_filter, ← List.countP_eq_length_filter,
    List.countP_map]
  rfl

/-- When the requested ids are pairwise distinct, each resolves to a
stored product, and the stored product ids are distinct, the queryset
has exactly as many rows as there are requested ids. -/
theorem resolveProducts_length (s : Store) (pids : List Nat)
    (hnd : pids.Nodup)
    (hids : (s.products.map (fun p => p.id)).Nodup)
    (hex : ∀ pid ∈ pids, ∃ p ∈ s.products, p.id = pid) :
    (resolveProducts s pids).length = pids.length := by
  have hsub : ∀ i ∈ pids, i ∈ s.products.map (fun p => p.id) := by
    intro i hi
    obtain ⟨p, hp, hpe⟩ := hex i hi
    exact List.mem_map.mpr ⟨p, hp, hpe⟩
  have hfnd : ((s.products.map (fun p => p.id)).filter
      (fun i => i ∈ pids)).Nodup := hids.filter _
  have hperm : List.Perm ((s.products.map (fun p => p.id)).filter
      (fun i => i ∈ pids)) pids := by
    apply List.perm_of_nodup_nodup_toFinset_eq hfnd hnd
    ext a
    simp only [List.mem_toFinset, List.mem_filter, decide_eq_true_eq]
    exact ⟨fun h => h.2, fun h => ⟨hsub a h, h⟩⟩
  rw [resolveProducts_length_eq_filter, hperm.length_eq]

/-- C1, counterexample to the claim as stated: `[1, 1]` is a non-empty
list of ids of existing products of `storeAlice`, yet `create_order`
fails with InvalidProduct — the queryset deduplicates, so 1 row ≠ 2
requested ids. -/
theorem createOrder_total_counterexample :
    (∀ pid ∈ [1, 1], ∃ p ∈ storeAlice.products, p.id = pid) ∧
    ([1, 1] ≠ ([] : List Nat)) ∧
    (createOrder storeAlice 1 [1, 1] none 5 0).1 =
      Except.error CrmError.invalidProduct := by
  refine ⟨by decide, by decide, by decide⟩

/-- C1, amended: for every existing customer and every non-empty list of
pairwise-distinct ids of existing products (the stored product ids being
distinct, as ids are), `create_order` succeeds, persists exactly the new
order, and the persisted order's `total_amount` is the sum of the
attached products' prices. -/
theorem createOrder_total (s : Store) (c : CustomerRec) (pids : List Nat)
    (od : Option Nat) (nid now : Nat)
    (hc : resolveCustomer s c.id = some c)
    (hne : pids ≠ [])
    (hnd : pids.Nodup)
    (hids : (s.products.map (fun p => p.id)).Nodup)
    (hex : ∀ pid ∈ pids, ∃ p ∈ s.products, p.id = pid) :
    ∃ ord : OrderRec,
      createOrder s c.id pids od nid now =
        (Except.ok ord, { s with orders := s.orders ++ [ord] }) ∧
      ord.totalAmount =
        ((resolveProducts s pids).map (fun p => p.price)).sum := by
  have hlen := resolveProducts_length s pids hnd hids hex
  have hne' : pids.isEmpty = false := by
    cases pids with
    | nil => exact absurd rfl hne
    | cons a l => rfl
  refine ⟨⟨nid, c.id, (resolveProducts s pids).map (fun p => p.id),
    orderTotal (resolveProducts s pids), od.getD now⟩, ?_, rfl⟩
  simp only [createOrder, hc, hne', Bool.false_eq_true, if_false]
  rw [if_neg (fun hn => hn hlen)]

/-- Witness for C1: on `storeAlice` with products priced 10 and 15, the
order for ids [1, 2] succeeds with total_amount 25. -/
theorem createOrder_total_witness :
    ∃ ord : OrderRec,
      createOrder storeAlice 1 [1, 2] none 7 0 =
        (Except.ok ord,
          { storeAlice with orders := storeAlice.orders ++ [ord] }) ∧
      ord.totalAmount = 25 := by
  obtain ⟨ord, h1, h2⟩ := createOrder_total storeAlice aliceC [1, 2] none
    7 0 (by decide) (by decide) (by decide) (by decide) (by decide)
  refine ⟨ord, h1, ?_⟩
  rw [h2]
  show ((List.filter (fun p => decide (p.id ∈ [1, 2]))
    storeAlice.products).map (fun p => p.price)).sum = 25
  norm_num [storeAlice, prodTen, prodFifteen]

/-- C4: with an existing customer and a non-empty product id list,
`create_order` fails with InvalidProduct exactly when the number of
products resolved from the ids differs from the number of requested ids;
in particular (stored ids being distinct) a requested id resolving to no
product forces this failure. -/
theorem createOrder_invalidProduct_iff (s : Store) (c : CustomerRec)
    (cid : Nat) (pids : List Nat) (od : Option Nat) (nid now : Nat)
    (hc : resolveCustomer s cid = some c) (hne : pids ≠ []) :
    ((createOrder s cid pids od nid now).1 =
        Except.error CrmError.invalidProduct ↔
      (resolveProducts s pids).length ≠ pids.length) ∧
    ((∃ pid ∈ pids, ∀ p ∈ s.products, p.id ≠ pid) →
      (s.products.map (fun p => p.id)).Nodup →
      (createOrder s cid pids od nid now).1 =
        Except.error CrmError.invalidProduct) := by
  have hne' : pids.isEmpty = false := by
    cases pids with
    | nil => exact absurd rfl hne
    | cons a l => rfl
  have hiff : (createOrder s cid pids od nid now).1 =
      Except.error CrmError.invalidProduct ↔
      (resolveProducts s pids).length ≠ pids.length := by
    simp only [createOrder, hc, hne', Bool.false_eq_true, if_false]
    by_cases hl : (resolveProducts s pids).length ≠ pids.length
    · rw [if_pos hl]
      simp [hl]
    · rw [if_neg hl]
      simp [hl]
  refine ⟨hiff, ?_⟩
  intro hm hids
  obtain ⟨pid, hpid, hmiss⟩ := hm
  have hpm : pid ∉ s.products.map (fun p => p.id) := by
    intro hmem
    obtain ⟨p, hp, he⟩ := List.mem_map.mp hmem
    exact hmiss p hp he
  have hsubs : ((s.products.map (fun p => p.id)).filter
      (fun i => i ∈ pids)).toFinset ⊆ pids.toFinset.erase pid := by
    intro a ha
    rw [List.mem_toFinset, List.mem_filter] at ha
    rw [Finset.mem_erase, List.mem_toFinset]
    refine ⟨?_, by simpa using ha.2⟩
    rintro rfl
    exact hpm ha.1
  have hnd2 : ((s.products.map (fun p => p.id)).filter
      (fun i => i ∈ pids)).Nodup := hids.filter _
  have hcard1 := List.toFinset_card_of_nodup hnd2
  have hcard2 : (pids.toFinset.erase pid).card < pids.toFinset.card :=
    Finset.card_erase_lt_of_mem (List.mem_toFinset.mpr hpid)
  have hcard3 : pids.toFinset.card ≤ pids.length :=
    List.toFinset_card_le _
  have hcard4 := Finset.card_le_card hsubs
  have hlt : (resolveProducts s pids).length < pids.length := by
    rw [resolveProducts_length_eq_filter]
    omega
  exact hiff.mpr (by omega)

/-- Witness for C4: on `storeAlice` and customer 1, the list [1, 99]
resolves to one product instead of two, and the call fails with
InvalidProduct (shown through both directions of the
characterisation). -/
theorem createOrder_invalidProduct_iff_witness :
    (createOrder storeAlice 1 [1, 99] none 5 0).1 =
      Except.error CrmError.invalidProduct ∧
    (resolveProducts storeAlice [1, 99]).length ≠ [1, 99].length :=
  ⟨(createOrder_invalidProduct_iff storeAlice aliceC 1 [1, 99] none 5 0
      (by decide) (by decide)).2 ⟨99, by decide, by decide⟩ (by decide),
    (createOrder_invalidProduct_iff storeAlice aliceC 1 [1, 99] none 5 0
      (by decide) (by decide)).1.mp
      ((createOrder_invalidProduct_iff storeAlice aliceC 1 [1, 99] none 5 0
        (by decide) (by decide)).2 ⟨99, by decide, by decide⟩ (by decide))⟩
